import Mathlib

/-!
Shallow embedding of the pub-sub log aggregator (src/src/models.py,
src/src/database.py, src/src/main.py) and proofs about it.

Conventions of the embedding:
* Database tables are Lean lists of rows; an SQL `INSERT ... ON CONFLICT DO
  NOTHING` appends a row exactly when no row with the same key is present.
* A database transaction either commits (`TxOutcome.ok`) or raises a
  serialization abort at statement time (`TxOutcome.serializationAbort`);
  Postgres rolls the whole transaction back in the latter case, so the
  aborted branch leaves the database state unchanged.  The outcome of each
  transaction is passed in explicitly, modelling the environment.
* `async` functions become pure state-passing functions; exceptions that a
  Python function propagates become `Except`.
* Nondeterministic inputs of the validator (the freshly generated UUID and
  the current UTC time) are passed in as explicit arguments.
-/

/-- JSON-like payload values (Python `Dict[str, Any]` entries). -/
inductive Json where
  | null : Json
  | bool (b : Bool) : Json
  | num (n : Int) : Json
  | str (s : String) : Json
  | arr (xs : List Json) : Json
  | obj (fields : List (String × Json)) : Json

/-- A validated event (models.py, class Event). -/
structure Event where
  topic : String
  event_id : String
  timestamp : String
  source : String
  payload : List (String × Json)

/-- The singleton `event_stats` row (columns received, unique_processed,
duplicate_dropped). -/
structure Stats where
  received : Int
  unique_processed : Int
  duplicate_dropped : Int
deriving DecidableEq

/-- A row of the `processed_events` table (columns relevant to the claims). -/
structure ProcessedRow where
  topic : String
  event_id : String
  timestamp : String
  source : String
  payload : List (String × Json)

/-- The database state: the `dedup_store` table (keyed rows), the
`processed_events` table, and the singleton `event_stats` row. -/
structure DBState where
  dedup_store : List (String × String)
  processed_events : List ProcessedRow
  event_stats : Stats

/-- State after init_db on a fresh database: empty tables, stats row
(1, 0, 0, 0). -/
def initDB : DBState :=
  { dedup_store := [], processed_events := [], event_stats := ⟨0, 0, 0⟩ }

/-- Fate of one serializable transaction: it either commits, or a statement
raises a serialization failure (caught by the surrounding `except`). -/
inductive TxOutcome where
  | ok : TxOutcome
  | serializationAbort : TxOutcome

/-- The error message a serialization failure carries (`str(e)` of the
asyncpg exception). -/
def serializationErrMsg : String :=
  "could not serialize access due to concurrent update"

/-- Key lookup on a keyed table: does a row with this (topic, event_id)
exist?  This is the check performed by the UNIQUE (topic, event_id)
constraint and by `SELECT 1 ... WHERE topic = $1 AND event_id = $2`. -/
def has_key (l : List (String × String)) (t i : String) : Bool :=
  l.any (fun p => p.1 == t && p.2 == i)

/-- Key lookup on `processed_events`. -/
def processed_has_key (l : List ProcessedRow) (t i : String) : Bool :=
  l.any (fun r => r.topic == t && r.event_id == i)

/-- database.py, is_processed: point lookup on dedup_store. -/
def is_processed (db : DBState) (topic event_id : String) : Bool :=
  has_key db.dedup_store topic event_id

/-- database.py, mark_processed.  Inside one serializable transaction:
INSERT INTO dedup_store ... ON CONFLICT DO NOTHING, then INSERT INTO
processed_events ... ON CONFLICT DO NOTHING, then `return True, None`.
ON CONFLICT DO NOTHING means a conflicting insert adds no row and raises
no UniqueViolationError, so the `except asyncpg.UniqueViolationError`
handler in the source is unreachable and the happy path returns
(True, None) whether or not the dedup insert created a row.  A statement
raising a serialization failure is caught by the generic `except` and
returned as (False, str(e)); Postgres rolls the transaction back. -/
def mark_processed (o : TxOutcome) (db : DBState) (e : Event) :
    DBState × Bool × Option String :=
  match o with
  | .serializationAbort => (db, false, some serializationErrMsg)
  | .ok =>
    let db1 :=
      if has_key db.dedup_store e.topic e.event_id then db
      else { db with dedup_store := db.dedup_store ++ [(e.topic, e.event_id)] }
    let db2 :=
      if processed_has_key db1.processed_events e.topic e.event_id then db1
      else { db1 with processed_events :=
               db1.processed_events ++
                 [⟨e.topic, e.event_id, e.timestamp, e.source, e.payload⟩] }
    (db2, true, none)

/-- The single UPDATE statement of database.py, increment_stats:
SET received = received + $1, unique_processed = unique_processed + $2,
duplicate_dropped = duplicate_dropped + $3 WHERE id = 1. -/
def update_event_stats (s : Stats) (received unique duplicate : Int) : Stats :=
  { received := s.received + received
    unique_processed := s.unique_processed + unique
    duplicate_dropped := s.duplicate_dropped + duplicate }

/-- database.py, increment_stats: the UPDATE above inside a serializable
transaction; an exception is logged and re-raised to the caller. -/
def increment_stats (o : TxOutcome) (db : DBState)
    (received unique duplicate : Int) : Except String DBState :=
  match o with
  | .serializationAbort => .error serializationErrMsg
  | .ok => .ok { db with
      event_stats := update_event_stats db.event_stats received unique duplicate }

/-- database.py, clear_all_data: TRUNCATE processed_events, TRUNCATE
dedup_store, and reset the stats row to zero. -/
def clear_all_data (_db : DBState) : DBState :=
  { dedup_store := [], processed_events := [], event_stats := ⟨0, 0, 0⟩ }

/-- main.py, consumer_worker, body of one loop iteration after
`event = await _queue.get()`: check is_processed; if already processed,
increment duplicate_dropped; otherwise call mark_processed and increment
unique_processed on success and duplicate_dropped on any failure.  The
stats transactions themselves are taken to commit; `o` is the fate of the
mark_processed transaction. -/
def consume_one (o : TxOutcome) (db : DBState) (e : Event) : DBState :=
  if is_processed db e.topic e.event_id then
    { db with event_stats := update_event_stats db.event_stats 0 0 1 }
  else
    let r := mark_processed o db e
    if r.2.1 then
      { r.1 with event_stats := update_event_stats r.1.event_stats 0 1 0 }
    else
      { r.1 with event_stats := update_event_stats r.1.event_stats 0 0 1 }

/-- The consumer loop viewed from shutdown time.  While not cancelled it
dequeues and processes events one by one (all its transactions committing);
once `_consumer_task.cancel()` is called, the pending `await _queue.get()`
raises CancelledError, which `except Exception` does not catch, so the loop
exits immediately and every event still in the queue stays there. -/
def consumer_drain (cancelled : Bool) (db : DBState) (queue : List Event) :
    DBState × List Event :=
  if cancelled then (db, queue)
  else (queue.foldl (consume_one .ok) db, [])

/-- Observable outcome of the lifespan shutdown block. -/
structure ShutdownOutcome where
  db : DBState
  unprocessed : List Event
  joinCompletes : Bool
  poolClosed : Bool

/-- main.py, lifespan, finally-block: first `_consumer_task.cancel()` and
`await _consumer_task` (the consumer exits at once, processing nothing
more), then `await _queue.join()` (which completes only when every queued
item has been marked done, i.e. only if the queue is already empty), then
`await close_pool()` (reached only if the join completes). -/
def lifespan_shutdown (db : DBState) (queue : List Event) : ShutdownOutcome :=
  let r := consumer_drain true db queue
  let joins := r.2.isEmpty
  { db := r.1, unprocessed := r.2, joinCompletes := joins, poolClosed := joins }

/-- Modelled from the spec: `MarkProcessed` as §4.B describes it, with the
serializable transaction retried on abort up to a bound of 3 attempts
before surfacing the error (the repository source, `mark_processed`, has
no such retry; this definition exists to compare the source against the
claimed behavior).  `o1 o2 o3` are the fates of the successive attempts. -/
def markProcessedSpecRetry (o1 o2 o3 : TxOutcome) (db : DBState) (e : Event) :
    DBState × Bool × Option String :=
  match o1 with
  | .ok => mark_processed .ok db e
  | .serializationAbort =>
    match o2 with
    | .ok => mark_processed .ok db e
    | .serializationAbort =>
      match o3 with
      | .ok => mark_processed .ok db e
      | .serializationAbort => (db, false, some serializationErrMsg)

/-- A raw incoming record before validation: each field may be absent. -/
structure RawEvent where
  topic : Option String
  event_id : Option String
  timestamp : Option String
  source : Option String
  payload : Option (List (String × Json))

/-- Validation of one required bounded string field of models.py, Event:
Field(..., min_length=1, max_length=255). -/
def validate_field (name : String) (v : Option String) : Except String String :=
  match v with
  | none => .error (name ++ ": field required")
  | some s =>
    if s.length < 1 then
      .error (name ++ ": ensure this value has at least 1 characters")
    else if 255 < s.length then
      .error (name ++ ": ensure this value has at most 255 characters")
    else .ok s

/-- models.py, Event: pydantic validation of a raw record.  `topic` and
`source` are required with length in 1..255; `event_id` defaults to a
freshly generated UUID (`genUuid`), `timestamp` to the current UTC
ISO-8601 string (`nowIso`), `payload` to the empty map. -/
def validate_event (r : RawEvent) (genUuid nowIso : String) :
    Except String Event :=
  match validate_field "topic" r.topic with
  | .error m => .error m
  | .ok t =>
    match validate_field "source" r.source with
    | .error m => .error m
    | .ok s =>
      .ok { topic := t, event_id := r.event_id.getD genUuid,
            timestamp := r.timestamp.getD nowIso, source := s,
            payload := r.payload.getD [] }

/-- The wire shape of the `events` key: a single event or a list. -/
inductive RawEvents where
  | single (e : RawEvent)
  | list (es : List RawEvent)

/-- models.py, PublishRequest.events : Union of Event and List of Event. -/
inductive EventsUnion where
  | single (e : Event)
  | list (es : List Event)

/-- models.py, PublishRequest. -/
structure PublishRequest where
  events : EventsUnion

/-- models.py, PublishRequest.get_events: normalize to a list. -/
def PublishRequest.get_events (r : PublishRequest) : List Event :=
  match r.events with
  | .single e => [e]
  | .list es => es

/-- Validation of a list of raw events in order, as pydantic validates
List of Event; `idx` numbers the events, `g idx` is the UUID generated for
the idx-th event should it need one.  The first invalid event fails the
whole list. -/
def validate_events_list (g : Nat → String) (now : String) :
    List RawEvent → Nat → Except String (List Event)
  | [], _ => .ok []
  | r :: rest, idx =>
    match validate_event r (g idx) now with
    | .error m => .error ("events." ++ toString idx ++ "." ++ m)
    | .ok e =>
      match validate_events_list g now rest (idx + 1) with
      | .error m => .error m
      | .ok es => .ok (e :: es)

/-- FastAPI parsing of the request body into a PublishRequest: every
event of the body must validate, else the whole request is rejected
before the handler runs. -/
def parse_publish_request (body : RawEvents) (g : Nat → String)
    (now : String) : Except String PublishRequest :=
  match body with
  | .single r => (validate_event r (g 0) now).map (fun e => ⟨.single e⟩)
  | .list rs => (validate_events_list g now rs 0).map (fun es => ⟨.list es⟩)

/-- One entry of the errors array of the publish response; `event_id` is
present on the validation-error branch and absent on the generic one. -/
structure ErrEntry where
  index : Nat
  event_id : Option String
  error : String
deriving DecidableEq

/-- models.py, PublishResponse. -/
structure PublishResponse where
  status : String
  count : Nat
  accepted : Nat
  rejected : Nat
  errors : List ErrEntry
deriving DecidableEq

/-- main.py, publish_events, line `validated_event = Event(**event.dict())`:
re-validation of an already validated event through the same pydantic
model (all five fields present, so only the length constraints on topic
and source are checked). -/
def revalidate (e : Event) : Except String Event :=
  validate_event
    ⟨some e.topic, some e.event_id, some e.timestamp, some e.source,
      some e.payload⟩ e.event_id e.timestamp

/-- Fate of the awaits of one loop iteration of the publish handler
(`increment_stats(received=1)` and `_queue.put`): they either succeed or
raise, the exception being caught by the iteration's generic `except`. -/
inductive IterOutcome where
  | ok
  | raiseExc (msg : String)

/-- main.py, publish_events, the `for idx, event in enumerate(...)` loop:
on ValidationError reject with an {index, event_id, error} entry, on any
other exception reject with an {index, error} entry, otherwise accept. -/
def publish_loop (outs : Nat → IterOutcome) :
    List Event → Nat → Nat → Nat → List ErrEntry → Nat × Nat × List ErrEntry
  | [], _, accepted, rejected, errors => (accepted, rejected, errors)
  | e :: rest, idx, accepted, rejected, errors =>
    match revalidate e with
    | .error m =>
      publish_loop outs rest (idx + 1) accepted (rejected + 1)
        (errors ++ [⟨idx, some e.event_id, m⟩])
    | .ok _ =>
      match outs idx with
      | .ok => publish_loop outs rest (idx + 1) (accepted + 1) rejected errors
      | .raiseExc m =>
        publish_loop outs rest (idx + 1) accepted (rejected + 1)
          (errors ++ [⟨idx, none, m⟩])

/-- main.py, publish_events: run the loop over the normalized event list
and build the response, `count` being the input length. -/
def publish_events (evs : List Event) (outs : Nat → IterOutcome) :
    PublishResponse :=
  let r := publish_loop outs evs 0 0 0 []
  { status := "accepted", count := evs.length, accepted := r.1,
    rejected := r.2.1, errors := r.2.2 }

/-- Result of a POST /publish request: a 200 response, or the 422 FastAPI
returns when the request body fails PublishRequest validation. -/
inductive HTTPResult where
  | ok (resp : PublishResponse)
  | unprocessableEntity (detail : String)
deriving DecidableEq

/-- The full POST /publish path: FastAPI parses the body into a
PublishRequest (rejecting the whole request with 422 on any invalid
event), then the handler runs over request.get_events(). -/
def publish_endpoint (body : RawEvents) (g : Nat → String) (now : String)
    (outs : Nat → IterOutcome) : HTTPResult :=
  match parse_publish_request body g now with
  | .error m => .unprocessableEntity m
  | .ok req => .ok (publish_events req.get_events outs)

/-- models.py, StatsResponse. -/
structure StatsResponse where
  received : Int
  unique_processed : Int
  duplicate_dropped : Int
  topics : List String
  uptime_seconds : ℚ
  unique_rate : ℚ
  duplicate_rate : ℚ

/-- Rounding to the nearest integer with ties to even, the behavior of
Python's builtin round (float rounding idealized as exact rational
arithmetic). -/
def roundHalfEven (q : ℚ) : Int :=
  let f := ⌊q⌋
  if q - f < 1 / 2 then f
  else if 1 / 2 < q - f then f + 1
  else if Even f then f else f + 1

/-- Python round(x, 2) on exact rationals. -/
def pyRound2 (q : ℚ) : ℚ := (roundHalfEven (q * 100) : ℚ) / 100

/-- main.py, get_aggregator_stats: rates computed as
(unique / total * 100) if total > 0 else 0, then round(_, 2). -/
def get_aggregator_stats (stats : Stats) (topics : List String)
    (uptime : ℚ) : StatsResponse :=
  let total := stats.received
  let unique := stats.unique_processed
  let duplicate := stats.duplicate_dropped
  let unique_rate : ℚ := if 0 < total then (unique : ℚ) / (total : ℚ) * 100 else 0
  let duplicate_rate : ℚ :=
    if 0 < total then (duplicate : ℚ) / (total : ℚ) * 100 else 0
  { received := total, unique_processed := unique,
    duplicate_dropped := duplicate, topics := topics,
    uptime_seconds := uptime, unique_rate := pyRound2 unique_rate,
    duplicate_rate := pyRound2 duplicate_rate }

/-- Sequential application of a batch of increment_stats deltas
(received, unique, duplicate); by serializability, any concurrent
execution of committed increments equals some such sequential order. -/
def apply_increment_batch (s : Stats) (ds : List (Int × Int × Int)) : Stats :=
  ds.foldl (fun acc d => update_event_stats acc d.1 d.2.1 d.2.2) s

/-- The state-changing operations of the persistence layer, each tagged
with the fate of its transaction. -/
inductive Op where
  | markProcessedOp (o : TxOutcome) (e : Event)
  | incrementStatsOp (o : TxOutcome) (received unique duplicate : Int)
  | consumeOneOp (o : TxOutcome) (e : Event)
  | clearAllDataOp

/-- Effect of one operation on the database state (a failed
increment_stats transaction leaves the state unchanged). -/
def step (db : DBState) : Op → DBState
  | .markProcessedOp o e => (mark_processed o db e).1
  | .incrementStatsOp o r u d =>
    match increment_stats o db r u d with
    | .ok db' => db'
    | .error _ => db
  | .consumeOneOp o e => consume_one o db e
  | .clearAllDataOp => clear_all_data db

/-- The database state reached by a sequence of operations from the
freshly initialized database. -/
def run (ops : List Op) : DBState := ops.foldl step initDB

/-- Invariant I1: every row of processed_events has a dedup_store row
with the same (topic, event_id). -/
def I1 (db : DBState) : Bool :=
  db.processed_events.all (fun r => has_key db.dedup_store r.topic r.event_id)

/-- A sample event used as concrete input. -/
def e0 : Event := ⟨"t", "e1", "2025-01-01T00:00:00Z", "s", []⟩

/-- A 256-character topic string. -/
def bigTopic : String := String.mk (List.replicate 256 'a')

/-- A valid raw event. -/
def rawValid1 : RawEvent :=
  ⟨some "t", some "ev1", some "2025-01-01T00:00:00Z", some "s", some []⟩

/-- A raw event with the required topic field missing. -/
def rawMissingTopic : RawEvent :=
  ⟨none, some "ev2", some "2025-01-01T00:00:00Z", some "s", some []⟩

/-- Another valid raw event. -/
def rawValid2 : RawEvent :=
  ⟨some "t", some "ev3", some "2025-01-01T00:00:00Z", some "s", some []⟩

/-- Whether pydantic validation of a raw record succeeds. -/
def validation_ok (r : RawEvent) (g now : String) : Bool :=
  match validate_event r g now with
  | .ok _ => true
  | .error _ => false

/-- C1: the code evaluated at the failing input.  Two sequential
mark_processed calls with the same (topic, event_id) starting from the
fresh database both return persisted=true, although the second call's
dedup insert created no new row (the dedup_store is unchanged by the
second call).  The claim, the spec and the repository's own tests T7,
T11 and T16 require the second call to return persisted=false. -/
theorem mark_processed_duplicate_returns_persisted :
    (mark_processed .ok initDB e0).2.1 = true ∧
    (mark_processed .ok (mark_processed .ok initDB e0).1 e0).2.1 = true ∧
    (mark_processed .ok (mark_processed .ok initDB e0).1 e0).1.dedup_store
      = (mark_processed .ok initDB e0).1.dedup_store ∧
    (mark_processed .ok initDB e0).1.dedup_store = [("t", "e1")] := by
  refine ⟨rfl, ?_, ?_, rfl⟩ <;> rfl

/-- C2 counterexample: mark_processed returns not-persisted with a
serialization-failure message, which does not indicate a uniqueness
violation, yet the consumer increments duplicate_dropped (from 0 to 1)
instead of incrementing neither counter. -/
theorem consumer_counts_nonunique_error_as_duplicate :
    (mark_processed .serializationAbort initDB e0).2.2
      = some serializationErrMsg ∧
    initDB.event_stats.duplicate_dropped = 0 ∧
    (consume_one .serializationAbort initDB e0).event_stats.duplicate_dropped
      = 1 := by
  refine ⟨rfl, rfl, ?_⟩
  rfl

/-- C2 amended: whenever the event is not already marked processed and
mark_processed returns not-persisted, the consumer increments
duplicate_dropped by one, regardless of whether the error indicates a
uniqueness violation. -/
theorem consumer_increments_duplicate_on_any_mark_failure
    (o : TxOutcome) (db : DBState) (e : Event)
    (h1 : is_processed db e.topic e.event_id = false)
    (h2 : (mark_processed o db e).2.1 = false) :
    (consume_one o db e).event_stats =
      update_event_stats (mark_processed o db e).1.event_stats 0 0 1 := by
  cases o with
  | ok => simp [mark_processed] at h2
  | serializationAbort => simp [consume_one, h1, mark_processed]

/-- C2 amended, witness at a concrete input. -/
theorem consumer_increments_duplicate_witness :
    (consume_one .serializationAbort initDB e0).event_stats =
      update_event_stats
        (mark_processed .serializationAbort initDB e0).1.event_stats 0 0 1 :=
  consumer_increments_duplicate_on_any_mark_failure
    .serializationAbort initDB e0 rfl rfl

/-- C3 counterexample: when the first serializable-transaction attempt
aborts, the source mark_processed surfaces the error at once (returning
not-persisted with the abort message), while the behavior the claim
describes, modelled by markProcessedSpecRetry, would retry and succeed
within the bound of 3 attempts. -/
theorem mark_processed_does_not_retry_abort :
    (mark_processed .serializationAbort initDB e0).2.1 = false ∧
    (mark_processed .serializationAbort initDB e0).2.2
      = some serializationErrMsg ∧
    (markProcessedSpecRetry .serializationAbort .ok .ok initDB e0).2.1
      = true := ⟨rfl, rfl, rfl⟩

/-- C3 amended: neither mark_processed nor increment_stats retries a
serializable-transaction abort: mark_processed returns (false, error)
from the single attempt, and increment_stats raises the error to its
caller, each leaving the database unchanged. -/
theorem abort_surfaces_without_retry (db : DBState) (e : Event)
    (r u d : Int) :
    mark_processed .serializationAbort db e
      = (db, false, some serializationErrMsg) ∧
    increment_stats .serializationAbort db r u d
      = .error serializationErrMsg := ⟨rfl, rfl⟩

/-- C5: the code evaluated at the failing input.  If shutdown begins with
one event still in the queue, the consumer is cancelled first and
processes nothing, so the event stays unprocessed, the queue join never
completes and the pool close is never reached; the claim requires the
event to be dedup-checked and credited before the pool closes. -/
theorem lifespan_shutdown_loses_pending_event :
    (lifespan_shutdown initDB [e0]).unprocessed = [e0] ∧
    (lifespan_shutdown initDB [e0]).joinCompletes = false ∧
    (lifespan_shutdown initDB [e0]).poolClosed = false ∧
    (lifespan_shutdown initDB [e0]).db.event_stats = initDB.event_stats :=
  ⟨rfl, rfl, rfl, rfl⟩

/-- Closed form of a batch of stats increments: each counter ends at its
initial value plus the sum of the corresponding deltas. -/
lemma apply_increment_batch_eq (s : Stats) (ds : List (Int × Int × Int)) :
    apply_increment_batch s ds =
      ⟨s.received + (ds.map (fun d => d.1)).sum,
        s.unique_processed + (ds.map (fun d => d.2.1)).sum,
        s.duplicate_dropped + (ds.map (fun d => d.2.2)).sum⟩ := by
  induction ds generalizing s with
  | nil => simp [apply_increment_batch]
  | cons d rest ih =>
    simp only [apply_increment_batch, List.foldl_cons] at *
    rw [ih]
    simp [update_event_stats, add_assoc]

/-- C6: increment_stats updates are increment-by-delta, hence commute:
any sequence of increments ends at the initial counters plus the sums of
the deltas, any permutation of a batch (any serialization order of
concurrent increments) yields the same counters, and ten increments of
(received=1, unique=1) starting from zero yield received=10 and
unique_processed=10. -/
theorem increment_stats_batches_commute (s : Stats)
    (ds ds' : List (Int × Int × Int)) :
    apply_increment_batch s ds =
      ⟨s.received + (ds.map (fun d => d.1)).sum,
        s.unique_processed + (ds.map (fun d => d.2.1)).sum,
        s.duplicate_dropped + (ds.map (fun d => d.2.2)).sum⟩ ∧
    (ds.Perm ds' →
      apply_increment_batch s ds = apply_increment_batch s ds') ∧
    apply_increment_batch ⟨0, 0, 0⟩ (List.replicate 10 (1, 1, 0))
      = ⟨10, 10, 0⟩ := by
  refine ⟨apply_increment_batch_eq s ds, ?_, by decide⟩
  intro hp
  rw [apply_increment_batch_eq, apply_increment_batch_eq,
    (hp.map (fun d => d.1)).sum_eq, (hp.map (fun d => d.2.1)).sum_eq,
    (hp.map (fun d => d.2.2)).sum_eq]

/-- C6 witness: the permutation clause applied to two concrete batches in
swapped order. -/
theorem increment_stats_batches_commute_witness :
    apply_increment_batch ⟨0, 0, 0⟩ [(1, 0, 0), (0, 1, 0)]
      = apply_increment_batch ⟨0, 0, 0⟩ [(0, 1, 0), (1, 0, 0)] :=
  (increment_stats_batches_commute ⟨0, 0, 0⟩ [(1, 0, 0), (0, 1, 0)]
    [(0, 1, 0), (1, 0, 0)]).2.1 (List.Perm.swap (0, 1, 0) (1, 0, 0) [])

/-- Key lookup is monotone under appending rows on the right. -/
lemma has_key_append_left {l1 : List (String × String)} (l2 : List (String × String))
    {t i : String} (h : has_key l1 t i = true) :
    has_key (l1 ++ l2) t i = true := by
  simp only [has_key, List.any_append, Bool.or_eq_true]
  exact Or.inl h

/-- The freshly appended key is found. -/
lemma has_key_appended (l : List (String × String)) (t i : String) :
    has_key (l ++ [(t, i)]) t i = true := by
  simp [has_key, List.any_append]

/-- I1 reads only the two tables, not the stats row. -/
lemma I1_set_stats (db : DBState) (s : Stats) :
    I1 { db with event_stats := s } = I1 db := rfl

/-- mark_processed preserves I1: the dedup insert precedes the
processed_events insert inside the same transaction, so a newly persisted
row always finds its key in dedup_store; an aborted transaction changes
nothing. -/
lemma I1_mark_processed (o : TxOutcome) (db : DBState) (e : Event)
    (h : I1 db = true) : I1 (mark_processed o db e).1 = true := by
  cases o with
  | serializationAbort => exact h
  | ok =>
    simp only [mark_processed]
    split
    · -- dedup_store already has the key
      rename_i hdk
      split
      · exact h
      · simp only [I1, List.all_append, List.all_cons, List.all_nil,
          Bool.and_eq_true] at h ⊢
        exact ⟨h, hdk, trivial⟩
    · -- the key is appended to dedup_store
      rename_i hdk
      split
      · simp only [I1, List.all_eq_true] at h ⊢
        intro r hr
        exact has_key_append_left _ (h r hr)
      · simp only [I1, List.all_append, List.all_cons, List.all_nil,
          Bool.and_eq_true, List.all_eq_true] at h ⊢
        refine ⟨fun r hr => has_key_append_left _ (h r hr), ?_, trivial⟩
        exact has_key_appended _ _ _

/-- Every operation preserves I1. -/
lemma I1_step (db : DBState) (op : Op) (h : I1 db = true) :
    I1 (step db op) = true := by
  cases op with
  | markProcessedOp o e => exact I1_mark_processed o db e h
  | incrementStatsOp o r u d =>
    cases o with
    | ok => exact h
    | serializationAbort => exact h
  | consumeOneOp o e =>
    simp only [step, consume_one]
    split
    · exact h
    · split
      · rw [I1_set_stats]
        exact I1_mark_processed o db e h
      · rw [I1_set_stats]
        exact I1_mark_processed o db e h
  | clearAllDataOp => rfl

/-- I1 holds after any tail of operations from a state satisfying it. -/
lemma I1_foldl (ops : List Op) (db : DBState) (h : I1 db = true) :
    I1 (ops.foldl step db) = true := by
  induction ops generalizing db with
  | nil => exact h
  | cons op rest ih => exact ih (step db op) (I1_step db op h)

/-- C7: invariant I1 is preserved by every operation: in every state
reachable from the fresh database by mark_processed, increment_stats,
consumer iterations and clear_all_data, every processed_events row has a
dedup_store row with the same (topic, event_id). -/
theorem I1_holds_in_reachable_states (ops : List Op) :
    I1 (run ops) = true :=
  I1_foldl ops initDB rfl

/-- Each loop iteration increments exactly one of accepted and rejected. -/
lemma publish_loop_count (outs : Nat → IterOutcome) (evs : List Event)
    (idx a rj : Nat) (errs : List ErrEntry) :
    (publish_loop outs evs idx a rj errs).1 +
      (publish_loop outs evs idx a rj errs).2.1 = a + rj + evs.length := by
  induction evs generalizing idx a rj errs with
  | nil => simp [publish_loop]
  | cons e rest ih =>
    simp only [publish_loop]
    cases hv : revalidate e with
    | error m =>
      rw [ih]
      simp [Nat.add_assoc, Nat.add_comm, Nat.add_left_comm]
    | ok ve =>
      cases outs idx with
      | ok =>
        rw [ih]
        simp [Nat.add_assoc, Nat.add_comm, Nat.add_left_comm]
      | raiseExc m =>
        rw [ih]
        simp [Nat.add_assoc, Nat.add_comm, Nat.add_left_comm]

/-- Each loop iteration appends an error entry exactly when it increments
rejected. -/
lemma publish_loop_errors (outs : Nat → IterOutcome) (evs : List Event)
    (idx a rj : Nat) (errs : List ErrEntry) (h : errs.length = rj) :
    (publish_loop outs evs idx a rj errs).2.2.length
      = (publish_loop outs evs idx a rj errs).2.1 := by
  induction evs generalizing idx a rj errs with
  | nil => simpa [publish_loop]
  | cons e rest ih =>
    simp only [publish_loop]
    cases hv : revalidate e with
    | error m => exact ih _ _ _ _ (by simp [h])
    | ok ve =>
      cases outs idx with
      | ok => exact ih _ _ _ _ h
      | raiseExc m => exact ih _ _ _ _ (by simp [h])

/-- C10: for every publish response, accepted plus rejected equals count,
count equals the length of the normalized input list, and the errors
array has exactly rejected entries — whatever the per-iteration outcomes
of the stats increment and the enqueue are. -/
theorem publish_response_accounting (evs : List Event)
    (outs : Nat → IterOutcome) :
    (publish_events evs outs).accepted + (publish_events evs outs).rejected
      = (publish_events evs outs).count ∧
    (publish_events evs outs).count = evs.length ∧
    (publish_events evs outs).errors.length
      = (publish_events evs outs).rejected := by
  refine ⟨?_, rfl, ?_⟩
  · simpa using publish_loop_count outs evs 0 0 0 []
  · exact publish_loop_errors outs evs 0 0 0 [] rfl

/-- C4 counterexample: submitting the batch [valid, missing topic, valid]
does not yield a 200 response with count=3, accepted=2, rejected=1 —
PublishRequest validation fails on the second event, so FastAPI rejects
the whole request with 422 before the handler's per-event loop runs. -/
theorem publish_batch_with_bad_event_rejected_whole :
    publish_endpoint (.list [rawValid1, rawMissingTopic, rawValid2])
      (fun _ => "uuid") "2025-01-01T00:00:00Z" (fun _ => .ok)
      = .unprocessableEntity "events.1.topic: field required" := by
  rfl

/-- C4 amended: events are validated at request parsing, where a single
invalid event aborts the whole batch with HTTP 422; for a request whose
events all validate, the handler processes each event individually and the
response count equals the normalized input length, with accepted plus
rejected equal to count and one error entry per rejection. -/
theorem publish_endpoint_validation (body : RawEvents) (g : Nat → String)
    (now : String) (outs : Nat → IterOutcome) :
    (∀ m, parse_publish_request body g now = .error m →
      publish_endpoint body g now outs = .unprocessableEntity m) ∧
    (∀ req, parse_publish_request body g now = .ok req →
      publish_endpoint body g now outs
          = .ok (publish_events req.get_events outs) ∧
        (publish_events req.get_events outs).count
          = req.get_events.length ∧
        (publish_events req.get_events outs).accepted
            + (publish_events req.get_events outs).rejected
          = (publish_events req.get_events outs).count ∧
        (publish_events req.get_events outs).errors.length
          = (publish_events req.get_events outs).rejected) := by
  constructor
  · intro m h
    simp [publish_endpoint, h]
  · intro req h
    refine ⟨by simp [publish_endpoint, h], rfl, ?_, ?_⟩
    · simpa using publish_loop_count outs req.get_events 0 0 0 []
    · exact publish_loop_errors outs req.get_events 0 0 0 [] rfl

/-- C4 amended, witness: the 422 clause applied to a one-event batch whose
event lacks a topic, and the 200 clause applied to a batch of one valid
event. -/
theorem publish_endpoint_validation_witness :
    publish_endpoint (.list [rawMissingTopic]) (fun _ => "u") "n"
        (fun _ => .ok)
      = .unprocessableEntity "events.0.topic: field required" ∧
    publish_endpoint (.list [rawValid1]) (fun _ => "u") "n" (fun _ => .ok)
      = .ok (publish_events
          [⟨"t", "ev1", "2025-01-01T00:00:00Z", "s", []⟩] (fun _ => .ok)) :=
  ⟨(publish_endpoint_validation (.list [rawMissingTopic]) (fun _ => "u") "n"
      (fun _ => .ok)).1 _ rfl,
    ((publish_endpoint_validation (.list [rawValid1]) (fun _ => "u") "n"
      (fun _ => .ok)).2 ⟨.list [⟨"t", "ev1", "2025-01-01T00:00:00Z", "s", []⟩]⟩
      rfl).1⟩

/-- C8: the validator accepts a raw record exactly when topic and source
are present, non-empty and at most 255 characters; absent event_id,
timestamp and payload default to the generated UUID, the current UTC
ISO-8601 string and the empty map respectively; and a publish request
carrying a single event or a list of events is normalized to a list
preserving order. -/
theorem validator_accepts_iff (r : RawEvent) (g now : String) :
    (validation_ok r g now = true ↔
      ((∃ t, r.topic = some t ∧ 1 ≤ t.length ∧ t.length ≤ 255) ∧
        (∃ s, r.source = some s ∧ 1 ≤ s.length ∧ s.length ≤ 255))) ∧
    (∀ e, validate_event r g now = .ok e →
      (r.event_id = none → e.event_id = g) ∧
      (r.timestamp = none → e.timestamp = now) ∧
      (r.payload = none → e.payload = [])) ∧
    (∀ (ev : Event) (evs : List Event),
      (PublishRequest.mk (.single ev)).get_events = [ev] ∧
      (PublishRequest.mk (.list evs)).get_events = evs) := by
  obtain ⟨tOpt, iOpt, tsOpt, sOpt, pOpt⟩ := r
  refine ⟨?_, ?_, fun ev evs => ⟨rfl, rfl⟩⟩
  · cases tOpt with
    | none => simp [validation_ok, validate_event, validate_field]
    | some t =>
      cases sOpt with
      | none =>
        simp only [validation_ok, validate_event, validate_field]
        split_ifs with h1 h2 <;> simp
      | some s =>
        simp only [validation_ok, validate_event, validate_field]
        split_ifs with h1 h2 h3 h4 <;> simp <;> omega
  · intro e he
    cases tOpt with
    | none => simp [validate_event, validate_field] at he
    | some t =>
      cases sOpt with
      | none =>
        simp only [validate_event, validate_field] at he
        split_ifs at he
      | some s =>
        simp only [validate_event, validate_field] at he
        split_ifs at he
        simp at he
        obtain ⟨rfl⟩ := he
        refine ⟨fun hi => ?_, fun hts => ?_, fun hp => ?_⟩
        · subst hi; rfl
        · subst hts; rfl
        · subst hp; rfl

/-- C8 witness: the acceptance criterion applied to a minimal valid
record, to a record with a 256-character topic (rejected), and the
default clause applied to a record with absent optional fields. -/
theorem validator_accepts_iff_witness :
    validation_ok ⟨some "t", none, none, some "s", none⟩ "g0" "now0" = true ∧
    validation_ok ⟨some bigTopic, some "e", some "ts", some "s", some []⟩
        "g" "n" = false ∧
    ((⟨"t", "g0", "now0", "s", []⟩ : Event).event_id = "g0" ∧
      (⟨"t", "g0", "now0", "s", []⟩ : Event).timestamp = "now0" ∧
      (⟨"t", "g0", "now0", "s", []⟩ : Event).payload = []) := by
  refine ⟨?_, ?_, ?_⟩
  · exact (validator_accepts_iff ⟨some "t", none, none, some "s", none⟩
      "g0" "now0").1.mpr
      ⟨⟨"t", rfl, by decide, by decide⟩, ⟨"s", rfl, by decide, by decide⟩⟩
  · have h := (validator_accepts_iff
      ⟨some bigTopic, some "e", some "ts", some "s", some []⟩ "g" "n").1
    cases hb : validation_ok
        ⟨some bigTopic, some "e", some "ts", some "s", some []⟩ "g" "n" with
    | false => rfl
    | true =>
      exfalso
      obtain ⟨⟨t, ht, _, hle⟩, _⟩ := h.mp hb
      have htb : t = bigTopic := Option.some.inj ht.symm
      subst htb
      have hlen : bigTopic.length = 256 := by
        show (List.replicate 256 'a').length = 256
        exact List.length_replicate 256 'a'
      omega
  · have hd := (validator_accepts_iff ⟨some "t", none, none, some "s", none⟩
      "g0" "now0").2.1 ⟨"t", "g0", "now0", "s", []⟩ rfl
    exact ⟨hd.1 rfl, hd.2.1 rfl, hd.2.2 rfl⟩

/-- Rounding a rational that is already zero gives zero. -/
lemma pyRound2_zero : pyRound2 0 = 0 := by
  norm_num [pyRound2, roundHalfEven]

/-- C9: GET /stats computes the unique and duplicate rates as
100 * unique_processed / received and 100 * duplicate_dropped / received,
rounded to 2 decimal places (ties to even, exact rational arithmetic),
and both rates are 0 when received is 0. -/
theorem stats_rates_formula (stats : Stats) (topics : List String)
    (uptime : ℚ) :
    (stats.received = 0 →
      (get_aggregator_stats stats topics uptime).unique_rate = 0 ∧
      (get_aggregator_stats stats topics uptime).duplicate_rate = 0) ∧
    (0 < stats.received →
      (get_aggregator_stats stats topics uptime).unique_rate
        = pyRound2 (100 * (stats.unique_processed : ℚ)
            / (stats.received : ℚ)) ∧
      (get_aggregator_stats stats topics uptime).duplicate_rate
        = pyRound2 (100 * (stats.duplicate_dropped : ℚ)
            / (stats.received : ℚ))) := by
  constructor
  · intro h0
    simp only [get_aggregator_stats, h0]
    norm_num [pyRound2_zero]
  · intro hpos
    simp only [get_aggregator_stats, if_pos hpos]
    constructor
    · congr 1
      ring
    · congr 1
      ring

/-- C9 witness: the zero clause at received = 0 and the formula clause at
received = 4, unique_processed = 1, duplicate_dropped = 3. -/
theorem stats_rates_formula_witness :
    (get_aggregator_stats ⟨0, 0, 0⟩ [] 0).unique_rate = 0 ∧
    (get_aggregator_stats ⟨4, 1, 3⟩ [] 0).unique_rate
      = pyRound2 (100 * ((1 : Int) : ℚ) / ((4 : Int) : ℚ)) ∧
    (get_aggregator_stats ⟨4, 1, 3⟩ [] 0).duplicate_rate
      = pyRound2 (100 * ((3 : Int) : ℚ) / ((4 : Int) : ℚ)) := by
  refine ⟨((stats_rates_formula ⟨0, 0, 0⟩ [] 0).1 rfl).1, ?_, ?_⟩
  · exact ((stats_rates_formula ⟨4, 1, 3⟩ [] 0).2 (by norm_num)).1
  · exact ((stats_rates_formula ⟨4, 1, 3⟩ [] 0).2 (by norm_num)).2
